import Mathlib

/-!
Verification of the event decision-and-execution pipeline of
`eventhandler/baseclass.py` (classes `EventhandlerRunner` and `DecidedEvent`,
the `timeout` decorator).  Python dictionaries are modelled as insertion-ordered
association lists, Python object attributes as such a dictionary, exceptions as
`Except String`, and every `logger.<level>(fmt.format(args))` call site as a
dedicated constructor of `LogEntry` carrying the interpolated arguments.
-/

/-- Python values that occur in events, payloads and runner attributes:
strings, (arbitrary-precision) integers and booleans. -/
inductive Val where
  | vStr (s : String)
  | vInt (n : Int)
  | vBool (b : Bool)
deriving DecidableEq

/-- A Python `dict` with string keys: an insertion-ordered association list.
Python dictionaries never hold a duplicate key; theorems that need this fact
take it as a `Nodup` hypothesis. -/
def Dict : Type := List (String × Val)

instance : DecidableEq Dict := by
  unfold Dict
  infer_instance

/-- `d[k]` lookup returning `None` for a missing key: first binding wins. -/
def dlookup : Dict → String → Option Val
  | [], _ => none
  | (k, v) :: rest, key => if k = key then some v else dlookup rest key

/-- `d[k] = v`: replace the value at an existing key in place (insertion order
kept, as in CPython dicts), or append a new binding at the end. -/
def dictSet : Dict → String → Val → Dict
  | [], k, v => [(k, v)]
  | (k0, v0) :: rest, k, v =>
      if k0 = k then (k, v) :: rest else (k0, v0) :: dictSet rest k v

/-- Python truthiness of a `Val` (`bool(v)`). -/
def pyTruthy : Val → Bool
  | .vStr s => !s.isEmpty
  | .vInt n => n != 0
  | .vBool b => b

/-- `str.isdigit()` restricted to ASCII: true for a nonempty string all of
whose characters are decimal digits (`"".isdigit()` is false in Python). -/
def pyIsDigit (s : String) : Bool :=
  !s.data.isEmpty && s.data.all Char.isDigit

/-- `int(s)` for a decimal digit string. -/
def strToNat (s : String) : Nat :=
  s.data.foldl (fun a c => a * 10 + (c.toNat - 48)) 0

/-- The normalization applied to one value in `DecidedEvent.__init__`:
`if isinstance(v, str) and v.isdigit(): v = int(v)`. -/
def normalizeVal : Val → Val
  | .vStr s => if pyIsDigit s then .vInt (strToNat s) else .vStr s
  | v => v

/-- The normalization loop of `DecidedEvent.__init__`: every pure-digit string
value is coerced to its integer; keys and all other values are untouched. -/
def normalizeDict (d : Dict) : Dict :=
  d.map (fun kv => (kv.1, normalizeVal kv.2))

/-- `str(v)` as Python renders a value inside `str(dict)`. -/
def valStr : Val → String
  | .vStr s => "\x27" ++ s ++ "\x27"
  | .vInt n => toString n
  | .vBool b => if b then "True" else "False"

/-- The comma-separated entries of `str(dict)`. -/
def entriesStr : Dict → String
  | [] => ""
  | [(k, v)] => "\x27" ++ k ++ "\x27: " ++ valStr v
  | (k, v) :: rest => "\x27" ++ k ++ "\x27: " ++ valStr v ++ ", " ++ entriesStr rest

/-- `str(dict)`. -/
def dictStr (d : Dict) : String :=
  "\x7b" ++ entriesStr d ++ "\x7d"

/-- The `DecidedEvent` value object: `_eventopts`, `_payload` (None until the
decider sets it), `_summary`, `_runneropts`, `_discarded`,
`_discarded_silently`.  The optional `_is_heartbeat` attribute is settable but
never read by the pipeline and is not modelled. -/
structure DecidedEvent where
  eventopts : Dict
  payload : Option Dict
  summary : Option String
  runneropts : Dict
  is_discarded : Bool
  is_discarded_silently : Bool
deriving DecidableEq

/-- `DecidedEvent.__init__(self, eventopts)`.  The source stores the argument
without copying (`self._eventopts = eventopts`), so the digit-coercion loop
mutates the caller's mapping in place.  The model therefore returns both the
constructed event and the caller-visible state of the argument mapping after
the call; by the aliasing, both hold the normalized mapping.  `_summary` is
initialised to `str(self._eventopts)` after the loop. -/
def DecidedEvent.init (eventopts : Dict) : DecidedEvent × Dict :=
  let eo := normalizeDict eventopts
  ({ eventopts := eo
     payload := none
     summary := some (dictStr eo)
     runneropts := []
     is_discarded := false
     is_discarded_silently := true }, eo)

/-- `DecidedEvent.discard(self, silently=True)`: sets `_discarded = True` and
`_discarded_silently = True if silently else False`. -/
def DecidedEvent.discard (e : DecidedEvent) (silently : Bool := true) : DecidedEvent :=
  { e with
    is_discarded := true
    is_discarded_silently := if silently then true else false }

/-- `DecidedEvent.is_complete(self)`: false iff `_payload == None or
_summary == None` (note: an empty-string summary still counts as complete,
Python compares with `== None`, not truthiness). -/
def DecidedEvent.is_complete (e : DecidedEvent) : Bool :=
  match e.payload, e.summary with
  | none, _ => false
  | _, none => false
  | some _, some _ => true

/-- One emitted log record.  Each constructor is one `logger.<level>(...)`
call site of the source, carrying the interpolated arguments (the decider
class/module name interpolated into `decideErrorCritical` is plugin plumbing
and is abstracted away). -/
inductive LogEntry where
  /-- `logger.info("discarded: {}".format(decided_event.summary))` in `handle`. -/
  | discardedInfo (summary : String)
  /-- `logger.critical("a decided event {} must have the attributes payload and summary")` in `handle`. -/
  | incompleteCritical (className : String)
  /-- `logger.critical("when deciding based on this {} ... there was an error <{}>")` in `decide_and_prepare_event`. -/
  | decideErrorCritical (rawStr : String) (errMsg : String)
  /-- `logger.critical("raw event {} caused error {}")` in `handle` (only reachable
  when `decide_and_prepare_event` itself raised before `decided_event` was bound;
  never emitted in this model, where plugin lookup is out of scope). -/
  | rawErrorCritical (rawStr : String) (errMsg : String)
  /-- `logger.debug(f"command is {command}")` in `run_decided`. -/
  | commandDebug (command : String)
  /-- `logger.info("{}".format(decided_event.summary))` in `run_decided`. -/
  | summaryInfo (summary : String)
  /-- `logger.debug("stdout {}, stderr {}")` in `run_decided`. -/
  | stdoutStderrDebug (stdout stderr : String)
  /-- `logger.critical("run failed: stdout {}, stderr {}, event {}")`. -/
  | runFailedStderrCritical (stdout stderr summary : String)
  /-- `logger.critical("run failed: exception <{}>, event was <{}>")`. -/
  | runFailedExcCritical (excMsg summary : String)
  /-- `logger.critical("run failed: stdout {}, stderr {}, exitcode {}, event {}")`. -/
  | runFailedExitCritical (stdout stderr : String) (exit_code : Int) (summary : String)
deriving DecidableEq

/-- Is the record emitted at CRITICAL severity? -/
def isCriticalEntry : LogEntry → Bool
  | .incompleteCritical _ => true
  | .decideErrorCritical _ _ => true
  | .rawErrorCritical _ _ => true
  | .runFailedStderrCritical _ _ _ => true
  | .runFailedExcCritical _ _ => true
  | .runFailedExitCritical _ _ _ _ => true
  | _ => false

/-- Is the record emitted at INFO severity? -/
def isInfoEntry : LogEntry → Bool
  | .discardedInfo _ => true
  | .summaryInfo _ => true
  | _ => false

/-- Is the record the policy-error line about a non-discarded incomplete event? -/
def isIncompleteEntry : LogEntry → Bool
  | .incompleteCritical _ => true
  | _ => false

/-- `"{}".format(x)` where `x` is the summary attribute: `None` renders as
the string `None`. -/
def summaryStr : Option String → String
  | none => "None"
  | some s => s

/-- Python truthiness of an optional string (`if not decided_event.summary`,
`if stderr`, `if decide_exception_msg`): `None` and the empty string are
falsy. -/
def pyTruthyOptStr : Option String → Bool
  | none => false
  | some s => !s.data.isEmpty

/-- `x if x else ""` for the captured stdout/stderr in the log format calls. -/
def orEmpty : Option String → String
  | none => ""
  | some s => s

/-- `EventhandlerRunner.__init__(self, opts)`: sets
`baseclass_logs_summary = True`, then `setattr(self, opt, opts[opt])` for
every option.  The runner's attribute set is modelled as a `Dict`. -/
def runnerInit (opts : Dict) : Dict :=
  opts.foldl (fun a kv => dictSet a kv.1 kv.2) [("baseclass_logs_summary", Val.vBool true)]

/-- `EventhandlerRunner.overwrite_attributes(self, payload)`:
`for k in payload: if hasattr(self, k): setattr(self, k, payload[k])`. -/
def overwrite_attributes (attrs payload : Dict) : Dict :=
  payload.foldl (fun a kv => if (dlookup a kv.1).isSome then dictSet a kv.1 kv.2 else a) attrs

/-- The truthiness of `self.baseclass_logs_summary`.  `__init__` always sets
the attribute; a missing key (unreachable through `runnerInit`) defaults to
true, matching the value `__init__` would have installed. -/
def blsOf (attrs : Dict) : Bool :=
  match dlookup attrs "baseclass_logs_summary" with
  | some v => pyTruthy v
  | none => true

/-- Outcome of the `subprocess.Popen`/`communicate`/`wait` block for one
command: either the process completed with captured stdout, stderr and exit
code, or launching/communicating raised (message `str(e)`). -/
inductive ExecOutcome where
  | completes (stdout stderr : String) (exit_code : Int)
  | raisesExec (msg : String)

/-- Behaviour of the runner-specific abstract `self.run(decided_event)`
together with the executor: `run` either returns a command string (possibly
empty, which the source treats as an error) whose execution has the given
outcome, or itself raises with message `str(e)`. -/
inductive RunBehavior where
  | returnsCmd (command : String) (outcome : ExecOutcome)
  | raisesRun (msg : String)

/-- State of the local variables of `run_decided` when the `try` block is
left: `success`, `stdout`, `stderr` (initialised to `None`), `exit_code`
(initialised to `0`), `decide_exception_msg` (initialised to `None`), plus
the debug log lines emitted so far and the commands handed to `Popen`. -/
structure TryPhase where
  success : Bool
  stdout : Option String
  stderr : Option String
  exit_code : Int
  excMsg : Option String
  logs : List LogEntry
  cmds : List String

/-- The `try` block of `EventhandlerRunner.run_decided` for a non-`None`
event: call `self.run`, raise if the command is falsy, otherwise log the
command at DEBUG and execute it; any exception sets `success = False` and
`decide_exception_msg = str(e)`. -/
def runTryPhase (behavior : RunBehavior) : TryPhase :=
  match behavior with
  | .raisesRun m =>
      { success := false, stdout := none, stderr := none, exit_code := 0,
        excMsg := some m, logs := [], cmds := [] }
  | .returnsCmd cmd outcome =>
      if cmd.data.isEmpty then
        { success := false, stdout := none, stderr := none, exit_code := 0,
          excMsg := some "runner did not return a command", logs := [], cmds := [] }
      else
        match outcome with
        | .raisesExec m =>
            { success := false, stdout := none, stderr := none, exit_code := 0,
              excMsg := some m, logs := [.commandDebug cmd], cmds := [cmd] }
        | .completes out err code =>
            { success := code == 0, stdout := some out, stderr := some err,
              exit_code := code, excMsg := none, logs := [.commandDebug cmd],
              cmds := [cmd] }

/-- Result of `run_decided`: the returned boolean, the emitted log records,
and the commands whose execution was attempted. -/
structure RunOut where
  success : Bool
  logs : List LogEntry
  cmds : List String
deriving DecidableEq

/-- `EventhandlerRunner.run_decided(self, decided_event)` for a non-`None`
event (`handle` only calls it after `if decided_event:`; the source's
`decided_event == None` arm sets `success = True` and is unreachable from
`handle`).  `bls` is the truthiness of `self.baseclass_logs_summary` at call
time.  On success: INFO summary plus DEBUG stdout/stderr when `bls`.  On
failure: one CRITICAL line chosen by `if stderr: ... elif
decide_exception_msg: ... elif self.baseclass_logs_summary: ...`. -/
def run_decided (bls : Bool) (decided_event : DecidedEvent) (behavior : RunBehavior) : RunOut :=
  let t := runTryPhase behavior
  if t.success then
    { success := true
      logs := t.logs ++
        (if bls then
          [.summaryInfo (summaryStr decided_event.summary),
           .stdoutStderrDebug (orEmpty t.stdout) (orEmpty t.stderr)]
         else [])
      cmds := t.cmds }
  else
    { success := false
      logs := t.logs ++
        (if pyTruthyOptStr t.stderr then
          [.runFailedStderrCritical (orEmpty t.stdout) (orEmpty t.stderr)
            (summaryStr decided_event.summary)]
         else if pyTruthyOptStr t.excMsg then
          [.runFailedExcCritical (orEmpty t.excMsg) (summaryStr decided_event.summary)]
         else if bls then
          [.runFailedExitCritical (orEmpty t.stdout) (orEmpty t.stderr) t.exit_code
            (summaryStr decided_event.summary)]
         else [])
      cmds := t.cmds }

/-- The external environment read by `decide_and_prepare_event`: `OMD_SITE`,
`socket.gethostname()`, `socket.getfqdn()`, `int(time.time())`. -/
structure Env where
  omd_site : String
  host : String
  fqdn : String
  timestamp : Int

/-- The mutations `decide_and_prepare_event` applies to `raw_event` before
constructing the `DecidedEvent`: default `omd_site` only when absent, then
set the three originating fields (the timestamp assignment appears twice in
the source; the second overwrites the first). -/
def preparedRaw (env : Env) (raw : Dict) : Dict :=
  let r1 := if (dlookup raw "omd_site").isSome then raw
            else dictSet raw "omd_site" (.vStr env.omd_site)
  let r2 := dictSet r1 "omd_originating_host" (.vStr env.host)
  let r3 := dictSet r2 "omd_originating_fqdn" (.vStr env.fqdn)
  let r4 := dictSet r3 "omd_originating_timestamp" (.vInt env.timestamp)
  dictSet r4 "omd_originating_timestamp" (.vInt env.timestamp)

/-- The `DecidedEvent` handed to the decider: `DecidedEvent(raw_event)` after
the environment fields were injected. -/
def preparedEvent (env : Env) (raw : Dict) : DecidedEvent :=
  (DecidedEvent.init (preparedRaw env raw)).1

/-- The decider capability: `decide_and_prepare(decided_event)` mutates the
event through its setters (payload, summary, runneropts, discard) — modelled
as returning the updated event — or raises with message `str(e)`.  The
`eventopts` property has no setter, so the alias between the raw mapping and
`_eventopts` survives the decider (content mutations through the getter show
up in the returned event's `eventopts`). -/
def DeciderFun : Type :=
  DecidedEvent → Except String DecidedEvent

/-- `EventhandlerRunner.decide_and_prepare_event(self, raw_event)`: inject
the environment fields, construct the `DecidedEvent` (which normalizes the
aliased raw mapping in place), run the decider, and on any exception log one
CRITICAL line containing `str(raw_event)` (already normalized, by the alias)
and the error text, returning `None`.  Decider instantiation (`new_decider`)
and the `runner` attribute set on the decider instance are plugin plumbing,
out of scope; the decider is a parameter.  Returns the decided event (or
`None`), the caller-visible raw mapping, and the emitted log records. -/
def decide_and_prepare_event (env : Env) (decider : DeciderFun) (raw_event : Dict) :
    Option DecidedEvent × Dict × List LogEntry :=
  match decider (preparedEvent env raw_event) with
  | .ok ev => (some ev, ev.eventopts, [])
  | .error msg =>
      (none, (DecidedEvent.init (preparedRaw env raw_event)).2,
       [.decideErrorCritical (dictStr ((DecidedEvent.init (preparedRaw env raw_event)).2)) msg])

/-- Result of `EventhandlerRunner.handle`: the Python return value (`handle`
has no `return` statement, so it is `None` on every path — the boolean bound
to `success` is dropped), the runner's attribute set afterwards, the emitted
log records, and the commands whose execution was attempted. -/
structure HandleResult where
  ret : Option Bool
  attrs : Dict
  logs : List LogEntry
  cmds : List String

/-- `EventhandlerRunner.handle(self, raw_event)`.  When
`decide_and_prepare_event` returns `None`, `None.is_discarded` raises
`AttributeError`, caught by the `except` clause; `decided_event` is bound, so
the `NameError` probe fails quietly and no further line is logged.  A
discarded event short-circuits before the completeness check (non-silent
discard logs the summary at INFO, falling back to `str(raw_event)` when the
summary is falsy).  A non-discarded incomplete event logs one CRITICAL line.
Otherwise the payload is overlaid on the runner's attributes and
`run_decided` is invoked on the result of `self.run` (modelled by `runm`,
applied to the post-overlay attributes). -/
def handle (attrs : Dict) (env : Env) (decider : DeciderFun)
    (runm : Dict → DecidedEvent → RunBehavior) (raw_event : Dict) : HandleResult :=
  match decide_and_prepare_event env decider raw_event with
  | (none, _, dapLogs) =>
      { ret := none, attrs := attrs, logs := dapLogs, cmds := [] }
  | (some ev, rawAfter, dapLogs) =>
      if ev.is_discarded then
        if !ev.is_discarded_silently then
          let s := if pyTruthyOptStr ev.summary then summaryStr ev.summary else dictStr rawAfter
          { ret := none, attrs := attrs, logs := dapLogs ++ [.discardedInfo s], cmds := [] }
        else
          { ret := none, attrs := attrs, logs := dapLogs, cmds := [] }
      else if !ev.is_complete then
        { ret := none, attrs := attrs,
          logs := dapLogs ++ [.incompleteCritical "DecidedEvent"], cmds := [] }
      else
        let attrs2 := overwrite_attributes attrs (ev.payload.getD [])
        let rd := run_decided (blsOf attrs2) ev (runm attrs2 ev)
        { ret := none, attrs := attrs2, logs := dapLogs ++ rd.logs, cmds := rd.cmds }

/-- A SIGALRM handler slot: either the closure installed by the `timeout`
decorator (raising `RunnerTimeoutError(error_message)`) or any other handler
identified abstractly. -/
inductive Handler where
  | timeoutHandler (msg : String)
  | other (id : Nat)
deriving DecidableEq

/-- Process-wide alarm state: the installed SIGALRM handler and the pending
alarm in seconds (`0` = no pending alarm), as manipulated by
`signal.signal(signal.SIGALRM, h)` and `signal.alarm(n)`. -/
structure SigState where
  handler : Handler
  alarm : Nat
deriving DecidableEq

/-- `signal.signal(signal.SIGALRM, h)`: installs `h`, returns the previous
handler. -/
def signalSignal (st : SigState) (h : Handler) : Handler × SigState :=
  (st.handler, { st with handler := h })

/-- `signal.alarm(n)`: arms (or with `0` cancels) the alarm, returns the
previously pending seconds. -/
def signalAlarm (st : SigState) (n : Nat) : Nat × SigState :=
  (st.alarm, { st with alarm := n })

/-- The error raised by the handler the decorator installs:
`RunnerTimeoutError(error_message)`. -/
def runnerTimeoutError (msg : String) : String :=
  "RunnerTimeoutError: " ++ msg

/-- Firing the installed SIGALRM handler (only the decorator's closure is
meaningful here). -/
def handlerFire (h : Handler) : String :=
  match h with
  | .timeoutHandler m => runnerTimeoutError m
  | .other i => "SIGALRM " ++ toString i

/-- How one wrapped call turns out: it finishes within the deadline
(returning a value or raising), or it overruns and the alarm fires first. -/
inductive CallOutcome (α : Type) where
  | finishes (r : Except String α)
  | overruns

/-- The `wrapper` produced by `timeout(seconds, error_message)`: install the
raising handler (saving the previous one), arm the alarm, run the call, and
in the `finally` clause reinstall the saved handler and execute
`signal.alarm(0)` — which cancels the alarm unconditionally rather than
re-arming a previously pending one.  Returns the call's result (or the
raised error) together with the final signal state. -/
def timeoutWrapper (seconds : Nat) (error_message : String) (st : SigState)
    (call : CallOutcome α) : Except String α × SigState :=
  let (original_handler, st1) := signalSignal st (.timeoutHandler error_message)
  let (_prev_alarm, st2) := signalAlarm st1 seconds
  let result : Except String α :=
    match call with
    | .finishes r => r
    | .overruns => .error (handlerFire st2.handler)
  let (_, st3) := signalSignal st2 original_handler
  let (_, st4) := signalAlarm st3 0
  (result, st4)

/-- A concrete raw event used by concrete-input theorems. -/
def rawStateSample : Dict :=
  [("state", Val.vStr "2")]

/-- A concrete complete, non-discarded decided event used by concrete-input
theorems. -/
def sampleEvent : DecidedEvent :=
  { eventopts := [("state", Val.vInt 2)]
    payload := some [("contact", Val.vStr "oncall")]
    summary := some "CPU CRIT"
    runneropts := []
    is_discarded := false
    is_discarded_silently := true }

/-- A concrete environment used by concrete-input theorems. -/
def wEnv : Env :=
  { omd_site := "site", host := "host", fqdn := "host.example", timestamp := 0 }

/-- A concrete decider that discards every event silently. -/
def wDecider : DeciderFun :=
  fun e => Except.ok (e.discard true)

/-- A concrete decider that raises. -/
def wDeciderErr : DeciderFun :=
  fun _ => Except.error "boom"

/-- A concrete payload used by concrete-input theorems. -/
def wPayload : Dict :=
  [("name", Val.vStr "x")]

/-- A concrete decider that produces a complete, non-discarded event with
payload `wPayload`. -/
def wDecider5 : DeciderFun :=
  fun e => Except.ok { e with payload := some wPayload, summary := some "s" }

/-- A concrete runner attribute set used by concrete-input theorems. -/
def wAttrs : Dict :=
  [("name", Val.vStr "orig"), ("other", Val.vInt 1)]

/-- A concrete `run` behaviour used by concrete-input theorems. -/
def wRunm : Dict → DecidedEvent → RunBehavior :=
  fun _ _ => RunBehavior.raisesRun "unused"

lemma dlookup_dictSet_self (d : Dict) (k : String) (v : Val) :
    dlookup (dictSet d k v) k = some v := by
  induction d with
  | nil => simp [dictSet, dlookup]
  | cons kv rest ih =>
      obtain ⟨k0, v0⟩ := kv
      by_cases h : k0 = k
      · simp [dictSet, dlookup, h]
      · simp [dictSet, dlookup, h, ih]

lemma dlookup_dictSet_ne (d : Dict) (k k2 : String) (v : Val) (h : k2 ≠ k) :
    dlookup (dictSet d k v) k2 = dlookup d k2 := by
  have hk : k ≠ k2 := Ne.symm h
  induction d with
  | nil => simp [dictSet, dlookup, hk]
  | cons kv rest ih =>
      obtain ⟨k0, v0⟩ := kv
      by_cases h0 : k0 = k
      · subst h0
        simp [dictSet, dlookup, hk]
      · simp [dictSet, dlookup, h0, ih]

lemma dlookup_eq_none_of_not_mem (d : Dict) (k : String)
    (h : k ∉ d.map Prod.fst) : dlookup d k = none := by
  induction d with
  | nil => simp [dlookup]
  | cons kv rest ih =>
      obtain ⟨k0, v0⟩ := kv
      simp only [List.map_cons, List.mem_cons] at h
      push_neg at h
      simp [dlookup, Ne.symm h.1, ih h.2]

lemma dlookup_normalizeDict (d : Dict) (k : String) :
    dlookup (normalizeDict d) k = (dlookup d k).map normalizeVal := by
  induction d with
  | nil => simp [normalizeDict, dlookup]
  | cons kv rest ih =>
      obtain ⟨k0, v0⟩ := kv
      by_cases h : k0 = k
      · simp [normalizeDict, dlookup, h]
      · simp only [normalizeDict, List.map_cons, dlookup, h, if_false] at ih ⊢
        exact ih

lemma normalizeDict_keys (d : Dict) :
    (normalizeDict d).map Prod.fst = d.map Prod.fst := by
  induction d with
  | nil => rfl
  | cons kv rest ih =>
      simp only [normalizeDict, List.map_cons] at ih ⊢
      simp [ih]

lemma overwrite_attributes_dlookup (payload : Dict) (attrs : Dict) (k : String)
    (hnd : (payload.map Prod.fst).Nodup) :
    dlookup (overwrite_attributes attrs payload) k =
      match dlookup attrs k, dlookup payload k with
      | none, _ => none
      | some w, none => some w
      | some _, some v => some v := by
  induction payload generalizing attrs with
  | nil =>
      cases h : dlookup attrs k <;> simp [overwrite_attributes, dlookup, h]
  | cons kv rest ih =>
      obtain ⟨k0, v0⟩ := kv
      simp only [List.map_cons, List.nodup_cons] at hnd
      have step : overwrite_attributes attrs ((k0, v0) :: rest) =
          overwrite_attributes
            (if (dlookup attrs k0).isSome then dictSet attrs k0 v0 else attrs) rest := by
        simp [overwrite_attributes]
      rw [step, ih _ hnd.2]
      by_cases hk : k0 = k
      · subst hk
        have hrest : dlookup rest k0 = none :=
          dlookup_eq_none_of_not_mem rest k0 hnd.1
        cases ha : dlookup attrs k0 with
        | none => simp [dlookup, ha, hrest]
        | some w => simp [dlookup, ha, hrest, dlookup_dictSet_self]
      · have hne : dlookup (dictSet attrs k0 v0) k = dlookup attrs k :=
          dlookup_dictSet_ne attrs k0 k v0 (fun hh => hk hh.symm)
        cases ha : dlookup attrs k0 with
        | none => simp [dlookup, hk, ha]
        | some w => simp [dlookup, hk, ha, hne]

/-- Claim C6: after `DecidedEvent` construction, `eventopts` holds, at every
key whose original value was a string consisting entirely of digits, the
integer value of that string; every other value (non-digit strings,
non-strings) is unchanged, and no other transformation occurs (the key set is
preserved). -/
theorem eventopts_digit_normalization (raw : Dict) (k : String) :
    ((DecidedEvent.init raw).1.eventopts).map Prod.fst = raw.map Prod.fst
    ∧ dlookup ((DecidedEvent.init raw).1.eventopts) k =
        (match dlookup raw k with
         | some (Val.vStr s) =>
             some (if pyIsDigit s then Val.vInt (strToNat s) else Val.vStr s)
         | o => o) := by
  constructor
  · exact normalizeDict_keys raw
  · rw [show (DecidedEvent.init raw).1.eventopts = normalizeDict raw from rfl,
      dlookup_normalizeDict]
    cases h : dlookup raw k with
    | none => rfl
    | some v => cases v <;> simp [normalizeVal]

/-- Claim C9 counterexample: constructing a `DecidedEvent` from the raw
mapping `\x7b"state": "2"\x7d` does not leave the caller's mapping
unmodified — `__init__` stores the argument without copying and the
digit-coercion loop mutates it in place, so the caller afterwards sees
`\x7b"state": 2\x7d`. -/
theorem init_mutates_caller_mapping_cex :
    (DecidedEvent.init rawStateSample).2 ≠ rawStateSample := by
  decide

/-- Claim C9 amended: construction aliases the caller's mapping instead of
copying it; the digit-string-to-integer coercion is applied in place, so
after construction the caller's mapping equals the normalized mapping and is
the very mapping `eventopts` refers to. -/
theorem init_aliases_and_normalizes_caller_mapping (raw : Dict) (k : String) :
    (DecidedEvent.init raw).2 = normalizeDict raw
    ∧ (DecidedEvent.init raw).1.eventopts = (DecidedEvent.init raw).2
    ∧ dlookup ((DecidedEvent.init raw).2) k = (dlookup raw k).map normalizeVal := by
  exact ⟨rfl, rfl, dlookup_normalizeDict raw k⟩

/-- Claim C7 counterexample: the claim says `discard(silently)` sets
`is_discarded_silently` to the negation of `silently`; at `silently = true`
the source (`self._discarded_silently = True if silently else False`) yields
`true`, not the negation `false`. -/
theorem discard_silently_negation_cex :
    ¬ ((sampleEvent.discard true).is_discarded_silently = (!true)) := by
  decide

/-- Claim C7 amended: `discard(silently)` sets `is_discarded` to true and
`is_discarded_silently` to `silently` itself (not its negation), so that
`discard(false)` means discard-but-still-log-the-summary (handle logs when
`is_discarded_silently` is false) and `discard()`/`discard(true)` means
discard silently. -/
theorem discard_sets_silently_flag (e : DecidedEvent) (silently : Bool) :
    (e.discard silently).is_discarded = true
    ∧ (e.discard silently).is_discarded_silently = silently := by
  cases silently <;> simp [DecidedEvent.discard]

/-- Claim C8 counterexample: a previously pending alarm (here 5 seconds) is
not restored by the wrapper — the `finally` clause executes `signal.alarm(0)`
unconditionally, leaving no pending alarm. -/
theorem timeout_alarm_not_restored_cex :
    ((timeoutWrapper 3 "Timeout" { handler := Handler.other 0, alarm := 5 }
        (CallOutcome.finishes (Except.ok (42 : Nat)))).2).alarm ≠ 5 := by
  decide

/-- Claim C8 amended: whether the wrapped call returns, raises, or overruns
the deadline (in which case a `RunnerTimeoutError` carrying the configured
message replaces the call's normal result), the previously installed SIGALRM
handler is restored exactly once by the `finally` clause; the pending alarm,
however, is unconditionally cleared to zero rather than a previously pending
alarm being re-armed. -/
theorem timeout_restores_handler_clears_alarm {α : Type} (seconds : Nat)
    (msg : String) (st : SigState) (call : CallOutcome α) :
    ((timeoutWrapper seconds msg st call).2).handler = st.handler
    ∧ ((timeoutWrapper seconds msg st call).2).alarm = 0
    ∧ (timeoutWrapper seconds msg st call).1 =
        (match call with
         | .finishes r => r
         | .overruns => Except.error (runnerTimeoutError msg)) := by
  cases call <;> simp [timeoutWrapper, signalSignal, signalAlarm, handlerFire]

lemma data_isEmpty_eq_false {s : String} (h : s ≠ "") : s.data.isEmpty = false := by
  cases s with
  | mk l =>
      cases l with
      | nil => exact absurd rfl h
      | cons c cs => rfl

/-- Claim C3: for every complete, non-discarded event passed to
`run_decided`, the result is true iff the executed command's exit code is 0;
on success exactly one INFO line with the summary is logged unless baseclass
summary logging was suppressed; on failure exactly one critical line is
logged, selected by priority: stderr present logs stdout+stderr+summary, else
an execution-exception message logs exception+summary, else exit
code+stdout+stderr+summary is logged only when baseclass logging is not
suppressed. -/
theorem run_decided_success_and_log_priority (bls : Bool) (e : DecidedEvent)
    (_hcomp : e.is_complete = true) (_hnd : e.is_discarded = false)
    (cmd : String) (hcmd : cmd ≠ "") (out err : String) (code : Int)
    (m : String) (hm : m ≠ "") :
    ((run_decided bls e (.returnsCmd cmd (.completes out err code))).success = true
       ↔ code = 0)
    ∧ (code = 0 →
        (run_decided bls e (.returnsCmd cmd (.completes out err code))).logs.filter
            isCriticalEntry = []
        ∧ (run_decided bls e (.returnsCmd cmd (.completes out err code))).logs.filter
            isInfoEntry =
          (if bls then [.summaryInfo (summaryStr e.summary)] else []))
    ∧ (code ≠ 0 →
        (run_decided bls e (.returnsCmd cmd (.completes out err code))).logs.filter
            isCriticalEntry =
          (if err ≠ "" then
            [.runFailedStderrCritical out err (summaryStr e.summary)]
           else if bls then
            [.runFailedExitCritical out err code (summaryStr e.summary)]
           else []))
    ∧ ((run_decided bls e (.returnsCmd cmd (.raisesExec m))).success = false
       ∧ (run_decided bls e (.returnsCmd cmd (.raisesExec m))).logs.filter
            isCriticalEntry = [.runFailedExcCritical m (summaryStr e.summary)]) := by
  have hce : cmd.data.isEmpty = false := data_isEmpty_eq_false hcmd
  have hme : m.data.isEmpty = false := data_isEmpty_eq_false hm
  refine ⟨?_, ?_, ?_, ?_, ?_⟩
  · by_cases hcode : code = 0 <;>
      simp [run_decided, runTryPhase, hce, hcode]
  · intro hcode
    cases bls <;>
      simp [run_decided, runTryPhase, hce, hcode, isCriticalEntry, isInfoEntry]
  · intro hcode
    by_cases herr : err = ""
    · subst herr
      cases bls <;>
        simp [run_decided, runTryPhase, hce, hcode, pyTruthyOptStr, orEmpty,
          isCriticalEntry]
    · have hee : err.data.isEmpty = false := data_isEmpty_eq_false herr
      simp [run_decided, runTryPhase, hce, hcode, pyTruthyOptStr, orEmpty,
        isCriticalEntry, herr, hee]
  · simp [run_decided, runTryPhase, hce]
  · simp [run_decided, runTryPhase, hce, hme, pyTruthyOptStr, orEmpty,
      isCriticalEntry]

/-- Claim C3 witness at a concrete input: the hypotheses hold for
`sampleEvent` with command `notify.sh` exiting 0, and the theorem gives
success. -/
theorem run_decided_success_and_log_priority_witness :
    (run_decided true sampleEvent
      (RunBehavior.returnsCmd "notify.sh"
        (ExecOutcome.completes "out" "" 0))).success = true :=
  ((run_decided_success_and_log_priority true sampleEvent rfl rfl
      "notify.sh" (by decide) "out" "" 0 "boom" (by decide)).1).mpr rfl

/-- Claim C4 counterexample: a command execution ending with exit code 2,
empty stderr, while baseclass logging is suppressed, makes `run_decided`
return false but emits ZERO critical lines — not exactly one containing the
exit code, stdout, stderr and summary as claimed. -/
theorem nonzero_exit_critical_line_cex :
    (run_decided false sampleEvent
        (RunBehavior.returnsCmd "cmd" (ExecOutcome.completes "" "" 2))).success = false
    ∧ ((run_decided false sampleEvent
        (RunBehavior.returnsCmd "cmd" (ExecOutcome.completes "" "" 2))).logs.filter
          isCriticalEntry).length = 0 := by
  decide

/-- Claim C4 amended: for every command execution ending with a non-zero
exit code, `run_decided` returns false; a single CRITICAL line containing the
exit code, stdout, stderr and summary is emitted only when stderr is empty
and baseclass logging is not suppressed — when stderr is nonempty the single
CRITICAL line carries stdout, stderr and summary but not the exit code, and
when stderr is empty under suppressed logging no line is emitted at all. -/
theorem nonzero_exit_failure_logging (bls : Bool) (e : DecidedEvent)
    (cmd : String) (hcmd : cmd ≠ "") (out err : String) (code : Int)
    (hcode : code ≠ 0) :
    (run_decided bls e (.returnsCmd cmd (.completes out err code))).success = false
    ∧ (run_decided bls e (.returnsCmd cmd (.completes out err code))).logs.filter
        isCriticalEntry =
      (if err ≠ "" then
        [.runFailedStderrCritical out err (summaryStr e.summary)]
       else if bls then
        [.runFailedExitCritical out err code (summaryStr e.summary)]
       else []) := by
  have hce : cmd.data.isEmpty = false := data_isEmpty_eq_false hcmd
  constructor
  · simp [run_decided, runTryPhase, hce, hcode]
  · by_cases herr : err = ""
    · subst herr
      cases bls <;>
        simp [run_decided, runTryPhase, hce, hcode, pyTruthyOptStr, orEmpty,
          isCriticalEntry]
    · have hee : err.data.isEmpty = false := data_isEmpty_eq_false herr
      simp [run_decided, runTryPhase, hce, hcode, pyTruthyOptStr, orEmpty,
        isCriticalEntry, herr, hee]

/-- Claim C4 (amended) witness at a concrete input: exit code 2 with
nonempty stderr yields failure and the stderr-priority critical line. -/
theorem nonzero_exit_failure_logging_witness :
    (run_decided true sampleEvent
      (RunBehavior.returnsCmd "cmd" (ExecOutcome.completes "o" "e" 2))).success = false
    ∧ (run_decided true sampleEvent
        (RunBehavior.returnsCmd "cmd" (ExecOutcome.completes "o" "e" 2))).logs.filter
          isCriticalEntry =
      (if ("e" : String) ≠ "" then
        [LogEntry.runFailedStderrCritical "o" "e" (summaryStr sampleEvent.summary)]
       else if true then
        [LogEntry.runFailedExitCritical "o" "e" 2 (summaryStr sampleEvent.summary)]
       else []) :=
  nonzero_exit_failure_logging true sampleEvent "cmd" (by decide) "o" "e" 2 (by decide)

/-- Claim C1: for every event whose decider sets `is_discarded` during
`decide_and_prepare`, `handle` never builds or executes a command and never
emits the critical policy-error line about missing payload/summary, even if
the discarded event is incomplete: discard takes priority over the
completeness check. -/
theorem discard_priority_no_execution (attrs : Dict) (env : Env)
    (decider : DeciderFun) (runm : Dict → DecidedEvent → RunBehavior)
    (raw : Dict) (ev : DecidedEvent)
    (hdec : decider (preparedEvent env raw) = Except.ok ev)
    (hdis : ev.is_discarded = true) :
    (handle attrs env decider runm raw).cmds = []
    ∧ (handle attrs env decider runm raw).logs.filter isIncompleteEntry = [] := by
  unfold handle decide_and_prepare_event
  rw [hdec]
  by_cases hs : ev.is_discarded_silently <;>
    simp [hdis, hs, isIncompleteEntry]

/-- Claim C1 witness at a concrete input: a decider that discards (even
though the event is still incomplete) leads to no command and no
policy-error line. -/
theorem discard_priority_no_execution_witness :
    (handle [] wEnv wDecider wRunm []).cmds = []
    ∧ (handle [] wEnv wDecider wRunm []).logs.filter isIncompleteEntry = [] :=
  discard_priority_no_execution [] wEnv wDecider wRunm []
    ((preparedEvent wEnv []).discard true) rfl rfl

/-- Claim C2: if the decider raises during `decide_and_prepare`, or produces
a non-discarded event with `is_complete()` false, then `handle` executes no
command, emits exactly one critical log line, and returns without
propagating any exception to its caller (`handle` is total in the model: the
decide-phase errors are absorbed inside `decide_and_prepare_event`, and the
`AttributeError` raised by `None.is_discarded` is absorbed by the `except`
clause of `handle`). -/
theorem decider_error_or_incomplete_one_critical (attrs : Dict) (env : Env)
    (decider : DeciderFun) (runm : Dict → DecidedEvent → RunBehavior)
    (raw : Dict)
    (h : (∃ msg, decider (preparedEvent env raw) = Except.error msg)
       ∨ (∃ ev, decider (preparedEvent env raw) = Except.ok ev
            ∧ ev.is_discarded = false ∧ ev.is_complete = false)) :
    (handle attrs env decider runm raw).cmds = []
    ∧ ((handle attrs env decider runm raw).logs.filter isCriticalEntry).length = 1 := by
  unfold handle decide_and_prepare_event
  rcases h with ⟨msg, hmsg⟩ | ⟨ev, hok, hdis, hinc⟩
  · rw [hmsg]
    simp [isCriticalEntry]
  · rw [hok]
    simp [hdis, hinc, isCriticalEntry]

/-- Claim C2 witness at a concrete input: a raising decider yields no
command and exactly one critical line. -/
theorem decider_error_or_incomplete_one_critical_witness :
    (handle [] wEnv wDeciderErr wRunm []).cmds = []
    ∧ ((handle [] wEnv wDeciderErr wRunm []).logs.filter isCriticalEntry).length = 1 :=
  decider_error_or_incomplete_one_critical [] wEnv wDeciderErr wRunm []
    (Or.inl ⟨"boom", rfl⟩)

/-- Claim C5: when `handle` proceeds with a complete, non-discarded event,
then before `run()` is invoked (the `runm` argument is applied to exactly the
attribute set the result carries) every key of the event's payload that names
an existing runner attribute has that attribute's value overwritten with the
payload value; payload keys not already present as attributes are not added;
runner attributes not named in the payload are unchanged. -/
theorem payload_overlay_before_run (attrs : Dict) (env : Env)
    (decider : DeciderFun) (runm : Dict → DecidedEvent → RunBehavior)
    (raw : Dict) (ev : DecidedEvent) (p : Dict) (k : String)
    (hdec : decider (preparedEvent env raw) = Except.ok ev)
    (hdis : ev.is_discarded = false)
    (hcomp : ev.is_complete = true)
    (hp : ev.payload = some p)
    (hnd : (p.map Prod.fst).Nodup) :
    (handle attrs env decider runm raw).attrs = overwrite_attributes attrs p
    ∧ dlookup ((handle attrs env decider runm raw).attrs) k =
        (match dlookup attrs k, dlookup p k with
         | none, _ => none
         | some w, none => some w
         | some _, some v => some v) := by
  have hattrs : (handle attrs env decider runm raw).attrs
      = overwrite_attributes attrs p := by
    unfold handle decide_and_prepare_event
    rw [hdec]
    simp [hdis, hcomp, hp]
  refine ⟨hattrs, ?_⟩
  rw [hattrs]
  exact overwrite_attributes_dlookup p attrs k hnd

/-- Claim C5 witness at a concrete input: payload key `name` overwrites the
existing attribute `name`. -/
theorem payload_overlay_before_run_witness :
    (handle wAttrs wEnv wDecider5 wRunm []).attrs = overwrite_attributes wAttrs wPayload
    ∧ dlookup ((handle wAttrs wEnv wDecider5 wRunm []).attrs) "name" =
        (match dlookup wAttrs "name", dlookup wPayload "name" with
         | none, _ => none
         | some w, none => some w
         | some _, some v => some v) :=
  payload_overlay_before_run wAttrs wEnv wDecider5 wRunm []
    { preparedEvent wEnv [] with payload := some wPayload, summary := some "s" }
    wPayload "name" rfl rfl rfl rfl (by decide)

/-- Claim C10: for every raw event and every decider/run outcome,
`handle` returns `None`: the success/failure boolean computed by
`run_decided` is bound to the local `success` and never returned. -/
theorem handle_returns_none (attrs : Dict) (env : Env) (decider : DeciderFun)
    (runm : Dict → DecidedEvent → RunBehavior) (raw : Dict) :
    (handle attrs env decider runm raw).ret = none := by
  unfold handle decide_and_prepare_event
  cases decider (preparedEvent env raw) with
  | ok ev =>
      by_cases h1 : ev.is_discarded <;> by_cases h2 : ev.is_discarded_silently <;>
        by_cases h3 : ev.is_complete <;> simp [h1, h2, h3]
  | error msg => simp
